import Mathlib

/-!
Verification of the state-management core of the maimai SillyTavern plugin.

The Python code passes loosely-typed JSON-like dictionaries between the
planner-decision normalizer (`src/core/utils.py`), the state validator
(`src/core/state_manager.py, StateManager.validate_state_decision`), the
decay engine (`apply_scene_decay`), the consistency enforcer
(`ensure_status_consistency`) and the persistence layer
(`src/handlers/scene_handler.py, _update_scene_state` /
`src/core/scene_db.py, update_character_status`).

We embed those dictionaries as association lists over a JSON-like value
type.  Numeric values are modelled as `Int` (the Python code accepts
`int`/`float`; every constant and bound in the code is an integer, and
Python `bool` is a subclass of `int`, which `jnumVal?` reflects).
Python `//` is floor division, embedded as `Int.fdiv`.
-/

namespace Maimai

/-- JSON-like values, the payloads of the planner-decision dictionaries. -/
inductive JVal where
  | jnum (n : Int)
  | jstr (s : String)
  | jbool (b : Bool)
  | jnull
  | jlist (l : List JVal)
  | jdict (d : List (String × JVal))

/-- A Python dict with string keys, embedded as an association list
(first binding wins on lookup; `mapSet` keeps keys unique). -/
abbrev JMap := List (String × JVal)

/-- `m.get(k)` / `k in m`: first binding for `k`, if any. -/
def mapGet (m : JMap) (k : String) : Option JVal :=
  match m with
  | [] => none
  | kv :: rest => if kv.1 = k then some kv.2 else mapGet rest k

/-- `m[k] = v`: replace the binding for `k` in place, or append it —
Python dict assignment semantics (insertion order preserved). -/
def mapSet (m : JMap) (k : String) (v : JVal) : JMap :=
  match m with
  | [] => [(k, v)]
  | kv :: rest => if kv.1 = k then (k, v) :: rest else kv :: mapSet rest k v

/-- Python `x or default` on a numeric database field: `0`/`None` fall back
to the default (the code reads fields as `status.get(key, d) or d`). -/
def orDefault (v d : Int) : Int := if v = 0 then d else v

/-- The character-status row (`character_status` table), restricted to the
fields read by the state pipeline.  Numeric columns are integers in the
schema; enumerated and free-text columns are strings. -/
structure CharacterStatus where
  pleasure_value : Int
  pleasure_threshold : Int
  corruption_level : Int
  semen_volume : Int
  anal_development : Int
  vaginal_capacity : Int
  vaginal_wetness : String
  vaginal_state : String
  pregnancy_status : String
  physiological_state : String

-- ==================== constants (src/core/state_manager.py) ====================

def SCENE_TYPE_NORMAL : String := "normal"
def SCENE_TYPE_ROMANTIC : String := "romantic"
def SCENE_TYPE_INTIMATE : String := "intimate"
def SCENE_TYPE_EXPLICIT : String := "explicit"
def SCENE_TYPE_REST : String := "rest"

/-- `SCENE_TYPE_PLEASURE_RANGES.get(scene_type, (0, 60))`. -/
def sceneTypePleasureRange (t : String) : Int × Int :=
  if t = SCENE_TYPE_NORMAL then (0, 5)
  else if t = SCENE_TYPE_ROMANTIC then (5, 20)
  else if t = SCENE_TYPE_INTIMATE then (15, 40)
  else if t = SCENE_TYPE_EXPLICIT then (30, 60)
  else if t = SCENE_TYPE_REST then (-20, -5)
  else (0, 60)

def DECAY_NORMAL : Int := 5
def DECAY_ROMANTIC : Int := 0
def DECAY_REST : Int := 15
def TIME_DECAY_THRESHOLD : Int := 30
def TIME_DECAY_AMOUNT : Int := 20

/-- 状态一致性规则：快感值阈值 -> 最低湿润度 -/
def PLEASURE_WETNESS_RULES : List (Int × String) :=
  [(30, "微湿"), (50, "湿润"), (70, "淫湿"), (90, "爱液横流")]

def WETNESS_LEVELS : List String := ["正常", "微湿", "湿润", "淫湿", "爱液横流"]

def VAGINAL_STATES : List String := ["放松", "轻微收缩", "无意识收缩", "紧绷", "痉挛"]

def PREGNANCY_VALUES : List String := ["未受孕", "受孕中"]

def CLIMAX_TEXT : String := "高潮后的余韵中颤抖"

/-- The fields inspected by `validate_state_decision` (the §4.2 table);
any other key of `角色状态更新` is silently dropped. -/
def VALIDATED_FIELDS : List String :=
  ["pleasure_value", "corruption_level", "semen_volume", "physiological_state",
   "vaginal_state", "vaginal_wetness", "pregnancy_status", "pregnancy_source",
   "pregnancy_counter", "semen_sources", "vaginal_foreign", "inventory",
   "fetishes", "permanent_mods", "body_condition",
   "anal_development", "vaginal_capacity"]

/-- Column whitelist of `SceneDB.update_character_status`. -/
def CHARACTER_STATUS_FIELDS : List String :=
  ["body_condition", "physiological_state", "vaginal_state", "vaginal_wetness",
   "vaginal_capacity", "anal_development", "pregnancy_status", "pregnancy_source",
   "pregnancy_counter", "semen_volume", "semen_sources", "vaginal_foreign",
   "pleasure_value", "pleasure_threshold", "corruption_level", "fetishes",
   "permanent_mods", "inventory", "updated_at"]

-- ==================== Python value semantics ====================

/-- `isinstance(value, (int, float))`, with the numeric payload.  Python
treats `bool` as a subclass of `int` (`True == 1`, `False == 0`). -/
def jnumVal? : JVal → Option Int
  | .jnum n => some n
  | .jbool b => some (if b then 1 else 0)
  | _ => none

/-- The whitespace class of Python `re.sub(r"\s+", ...)` and `str.strip`,
restricted to the ASCII range (the claims only exercise ASCII/CJK text
without exotic Unicode whitespace). -/
def isPyWs (c : Char) : Bool :=
  c = ' ' || c = Char.ofNat 9 || c = Char.ofNat 10 || c = Char.ofNat 13 ||
  c = Char.ofNat 11 || c = Char.ofNat 12

/-- Python `str.strip()` (structural, over the character list). -/
def pyStrip (s : String) : String :=
  String.mk (((s.data.dropWhile isPyWs).reverse.dropWhile isPyWs).reverse)

/-- Python `str.lower()`, ASCII case folding. -/
def pyLower (s : String) : String := String.mk (s.data.map Char.toLower)

/-- Python `s[:n]` (structural character prefix). -/
def pyTake (s : String) (n : Nat) : String := String.mk (s.data.take n)

/-- `pat` occurs at the head of `s`. -/
def leadsWith : List Char → List Char → Bool
  | [], _ => true
  | _ :: _, [] => false
  | p :: ps, c :: cs => p == c && leadsWith ps cs

def containsSub : List Char → List Char → Bool
  | [], pat => leadsWith pat []
  | c :: rest, pat => leadsWith pat (c :: rest) || containsSub rest pat

/-- Python `pat in s` (substring membership). -/
def strContains (s pat : String) : Bool := containsSub s.data pat.data

/-- Single-quote character (Python repr quoting). -/
def sq : String := String.singleton (Char.ofNat 39)

mutual
/-- Python `repr`, used by `str` on containers.  String escaping inside
repr is not modelled; no claim evaluates it on strings with quotes. -/
def pyRepr : JVal → String
  | .jnum n => toString n
  | .jstr s => sq ++ s ++ sq
  | .jbool b => if b then "True" else "False"
  | .jnull => "None"
  | .jlist l => "[" ++ pyReprList l ++ "]"
  | .jdict d => "\x7b" ++ pyReprDict d ++ "\x7d"
def pyReprList : List JVal → String
  | [] => ""
  | [v] => pyRepr v
  | v :: rest => pyRepr v ++ ", " ++ pyReprList rest
def pyReprDict : List (String × JVal) → String
  | [] => ""
  | [kv] => sq ++ kv.1 ++ sq ++ ": " ++ pyRepr kv.2
  | kv :: rest => sq ++ kv.1 ++ sq ++ ": " ++ pyRepr kv.2 ++ ", " ++ pyReprDict rest
end

/-- Python `str(value)`. -/
def pyStr : JVal → String
  | .jstr s => s
  | v => pyRepr v

mutual
/-- `json.dumps(value, ensure_ascii=False)` with default separators.
JSON string escaping is not modelled; no claim evaluates it. -/
def jsonDumps : JVal → String
  | .jnum n => toString n
  | .jstr s => "\"" ++ s ++ "\""
  | .jbool b => if b then "true" else "false"
  | .jnull => "null"
  | .jlist l => "[" ++ jsonDumpsList l ++ "]"
  | .jdict d => "\x7b" ++ jsonDumpsDict d ++ "\x7d"
def jsonDumpsList : List JVal → String
  | [] => ""
  | [v] => jsonDumps v
  | v :: rest => jsonDumps v ++ ", " ++ jsonDumpsList rest
def jsonDumpsDict : List (String × JVal) → String
  | [] => ""
  | [kv] => "\"" ++ kv.1 ++ "\": " ++ jsonDumps kv.2
  | kv :: rest => "\"" ++ kv.1 ++ "\": " ++ jsonDumps kv.2 ++ ", " ++ jsonDumpsDict rest
end

-- ==================== State Validator ====================
-- StateManager.validate_state_decision (src/core/state_manager.py, 60-233);
-- SceneFormatHandler._validate_state_decision is the same logic.

/-- Step 1 clamp: 限制单次增加不超过60 / 减少不超过-100. -/
def gPleasureClamp (n : Int) : Int :=
  if n > 60 then 60 else if n < -100 then -100 else n

/-- The pleasure delta the validator emits: the clamped delta, or the
climax-reset delta `-current + threshold // 4` once
`current + delta >= threshold`. -/
def pleasureDeltaValidated (c : CharacterStatus) (n : Int) : Int :=
  let value := gPleasureClamp n
  let current_pleasure := orDefault c.pleasure_value 0
  let threshold := orDefault c.pleasure_threshold 100
  if current_pleasure + value ≥ threshold then
    -current_pleasure + Int.fdiv threshold 4
  else value

/-- Section 1 of the validator (快感值验证): writes `pleasure_value` and,
on climax, also `physiological_state`. -/
def step_pleasure (u : JMap) (c : CharacterStatus) (v : JMap) : JMap :=
  match mapGet u "pleasure_value" with
  | some raw =>
    match jnumVal? raw with
    | some n =>
      if orDefault c.pleasure_value 0 + gPleasureClamp n ≥ orDefault c.pleasure_threshold 100 then
        mapSet (mapSet v "physiological_state" (.jstr CLIMAX_TEXT)) "pleasure_value"
          (.jnum (pleasureDeltaValidated c n))
      else
        mapSet v "pleasure_value" (.jnum (pleasureDeltaValidated c n))
    | none => v
  | none => v

/-- Generic shape of validator sections 2-12: look the field up in the
incoming update map, and if the per-field rule `g` accepts the value,
write the converted value into the validated map. -/
def setIfSome (field : String) (g : JVal → Option JVal) (u : JMap) (v : JMap) : JMap :=
  match mapGet u field with
  | some raw =>
    match g raw with
    | some val => mapSet v field val
    | none => v
  | none => v

/-- Section 2 (污染度验证): clamp to [0,20], then to the remaining headroom
below 100; emit only if still strictly positive. -/
def gCorruption (c : CharacterStatus) (raw : JVal) : Option JVal :=
  match jnumVal? raw with
  | some n =>
    let value := if n > 20 then 20 else if n < 0 then 0 else n
    let current_corruption := orDefault c.corruption_level 0
    let value := if current_corruption + value > 100 then max 0 (100 - current_corruption) else value
    if value > 0 then some (.jnum value) else none
  | none => none

/-- Section 3 (体内精液验证): clamp to [-500,150]; do not underflow 0 or
overflow 500 (both tests read the pre-adjustment `new_volume`). -/
def gSemen (c : CharacterStatus) (raw : JVal) : Option JVal :=
  match jnumVal? raw with
  | some n =>
    let value := if n > 150 then 150 else if n < -500 then -500 else n
    let current_volume := orDefault c.semen_volume 0
    let new_volume := current_volume + value
    let value := if new_volume < 0 then -current_volume else value
    let value := if new_volume > 500 then max 0 (500 - current_volume) else value
    some (.jnum value)
  | none => none

/-- Section 4 (生理状态验证): `str()` then truncate to 100 characters. -/
def gPhysio (raw : JVal) : Option JVal :=
  let s := pyStr raw
  some (.jstr (if s.length > 100 then pyTake s 100 else s))

/-- Sections 5/6/7 (阴道状态 / 湿润度 / 怀孕状态): membership in the legal
set; otherwise the value is dropped (the >2-step wetness jump only logs). -/
def gEnum (allowed : List String) (raw : JVal) : Option JVal :=
  let s := pyStr raw
  if allowed.contains s then some (.jstr s) else none

/-- `pregnancy_source`: pass through as `str(value)`. -/
def gStr (raw : JVal) : Option JVal := some (.jstr (pyStr raw))

/-- `pregnancy_counter`: numeric values pass through as `int(value)`. -/
def gCounter (raw : JVal) : Option JVal :=
  (jnumVal? raw).map (fun n => JVal.jnum n)

/-- JSON list fields (`semen_sources`, `vaginal_foreign`, `inventory`):
lists are serialized with `json.dumps`, strings pass through. -/
def gJsonList (raw : JVal) : Option JVal :=
  match raw with
  | .jlist l => some (.jstr (jsonDumps (.jlist l)))
  | .jstr s => some (.jstr s)
  | _ => none

/-- JSON dict fields (`fetishes`, `permanent_mods`, `body_condition`). -/
def gJsonDict (raw : JVal) : Option JVal :=
  match raw with
  | .jdict d => some (.jstr (jsonDumps (.jdict d)))
  | .jstr s => some (.jstr s)
  | _ => none

/-- Section 9 (后穴开发度验证): clamp to [-100,20], then keep the merged
value in [0,100]. -/
def gAnal (c : CharacterStatus) (raw : JVal) : Option JVal :=
  match jnumVal? raw with
  | some n =>
    let value := if n > 20 then 20 else if n < -100 then -100 else n
    let current_development := orDefault c.anal_development 0
    let new_development := current_development + value
    let value :=
      if new_development < 0 then -current_development
      else if new_development > 100 then max 0 (100 - current_development)
      else value
    some (.jnum value)
  | none => none

/-- Section 10 (阴道容量验证): clamp to [-100,40], then keep the merged
value in [50,300]. -/
def gCapacity (c : CharacterStatus) (raw : JVal) : Option JVal :=
  match jnumVal? raw with
  | some n =>
    let value := if n > 40 then 40 else if n < -100 then -100 else n
    let current_capacity := orDefault c.vaginal_capacity 100
    let new_capacity := current_capacity + value
    let value :=
      if new_capacity < 50 then max (-current_capacity) (50 - current_capacity)
      else if new_capacity > 300 then min value (300 - current_capacity)
      else value
    some (.jnum value)
  | none => none

/-- `validate_state_decision`, restricted to the `角色状态更新` map: the
numbered sections run in source order, each writing into the fresh
`validated_updates` dict. -/
def validate_updates (u : JMap) (c : CharacterStatus) : JMap :=
  let v := step_pleasure u c []
  let v := setIfSome "corruption_level" (gCorruption c) u v
  let v := setIfSome "semen_volume" (gSemen c) u v
  let v := setIfSome "physiological_state" gPhysio u v
  let v := setIfSome "vaginal_state" (gEnum VAGINAL_STATES) u v
  let v := setIfSome "vaginal_wetness" (gEnum WETNESS_LEVELS) u v
  let v := setIfSome "pregnancy_status" (gEnum PREGNANCY_VALUES) u v
  let v := setIfSome "pregnancy_source" gStr u v
  let v := setIfSome "pregnancy_counter" gCounter u v
  let v := setIfSome "semen_sources" gJsonList u v
  let v := setIfSome "vaginal_foreign" gJsonList u v
  let v := setIfSome "inventory" gJsonList u v
  let v := setIfSome "fetishes" gJsonDict u v
  let v := setIfSome "permanent_mods" gJsonDict u v
  let v := setIfSome "body_condition" gJsonDict u v
  let v := setIfSome "anal_development" (gAnal c) u v
  let v := setIfSome "vaginal_capacity" (gCapacity c) u v
  v

/-- The full `validate_state_decision`: an empty (or missing/non-dict,
which the normalizer rules out) update map returns the decision
unchanged; otherwise `角色状态更新` is replaced by the validated map. -/
def validate_state_decision (decision : JMap) (c : CharacterStatus) : JMap :=
  let status_updates :=
    match mapGet decision "角色状态更新" with
    | some (.jdict d) => d
    | _ => []
  if status_updates.isEmpty then decision
  else mapSet decision "角色状态更新" (.jdict (validate_updates status_updates c))

-- ==================== persisted merge ====================
-- SceneFormatHandler._update_scene_state (src/handlers/scene_handler.py,
-- 1141-1186): numeric deltas are added to the current column value, all
-- other accepted fields replace it; the result goes to
-- SceneDB.update_character_status.

def NUMERIC_FIELDS : List String :=
  ["pleasure_value", "corruption_level", "semen_volume", "anal_development", "vaginal_capacity"]

/-- `current_status.get(key, 0) or 0` for the five accumulating columns. -/
def curFieldNum (c : CharacterStatus) (k : String) : Int :=
  if k = "pleasure_value" then c.pleasure_value
  else if k = "corruption_level" then c.corruption_level
  else if k = "semen_volume" then c.semen_volume
  else if k = "anal_development" then c.anal_development
  else if k = "vaginal_capacity" then c.vaginal_capacity
  else 0

/-- The `processed_updates` loop of `_update_scene_state`: add numeric
deltas onto the current value, pass everything else through. -/
def process_updates (c : CharacterStatus) (updates : JMap) : JMap :=
  updates.map fun kv =>
    match jnumVal? kv.2 with
    | some n =>
      if NUMERIC_FIELDS.contains kv.1
      then (kv.1, .jnum (orDefault (curFieldNum c kv.1) 0 + n))
      else kv
    | none => kv

/-- The column whitelist filter of `SceneDB.update_character_status`:
fields outside `CHARACTER_STATUS_FIELDS` never reach the SQL UPDATE. -/
def db_update_fields (updates : JMap) : JMap :=
  updates.filter (fun kv => CHARACTER_STATUS_FIELDS.contains kv.1)

-- ==================== Decay Engine ====================
-- StateManager.apply_scene_decay (src/core/state_manager.py, 282-315).

def apply_scene_decay (updates : JMap) (scene_type : String) (c : CharacterStatus) : JMap :=
  let current_pleasure := orDefault c.pleasure_value 0
  match mapGet updates "pleasure_value" with
  | some raw =>
    match jnumVal? raw with
    | some pleasure_delta =>
      let max_range := (sceneTypePleasureRange scene_type).2
      if pleasure_delta > 0 ∧ pleasure_delta > max_range
      then mapSet updates "pleasure_value" (.jnum max_range)
      else updates
    | none => updates
  | none =>
    let decay : Int :=
      if scene_type = SCENE_TYPE_NORMAL ∧ current_pleasure > 0 then DECAY_NORMAL
      else if scene_type = SCENE_TYPE_REST ∧ current_pleasure > 0 then DECAY_REST
      else if scene_type = SCENE_TYPE_ROMANTIC then DECAY_ROMANTIC
      else 0
    if decay > 0 ∧ current_pleasure > 0 then
      mapSet updates "pleasure_value" (.jnum (-(min decay current_pleasure)))
    else updates

-- ==================== Consistency Enforcer ====================
-- StateManager.ensure_status_consistency (src/core/state_manager.py, 317-368).

/-- `status_updates.get("pleasure_value", 0)` when numeric (the only case
the pipeline reaches: the map comes out of the validator). -/
def pleasureDeltaOf (updates : JMap) : Int :=
  match mapGet updates "pleasure_value" with
  | some raw => (jnumVal? raw).getD 0
  | none => 0

/-- `final_pleasure = max(0, current + delta)`; a non-numeric delta leaves
the current value. -/
def finalPleasureOf (updates : JMap) (c : CharacterStatus) : Int :=
  let current_pleasure := orDefault c.pleasure_value 0
  match mapGet updates "pleasure_value" with
  | some raw =>
    match jnumVal? raw with
    | some n => max 0 (current_pleasure + n)
    | none => max 0 current_pleasure
  | none => max 0 (current_pleasure + 0)

/-- `WETNESS_LEVELS.index(s) if s in WETNESS_LEVELS else 0`. -/
def wetnessLevelIdx (s : String) : Nat :=
  if WETNESS_LEVELS.contains s then WETNESS_LEVELS.indexOf s else 0

/-- Index of `status_updates.get("vaginal_wetness", current_wetness)` —
the wetness value the consistency pass compares against. -/
def effectiveWetnessIdx (updates : JMap) (c : CharacterStatus) : Nat :=
  match (mapGet updates "vaginal_wetness").getD (.jstr c.vaginal_wetness) with
  | .jstr s => wetnessLevelIdx s
  | _ => 0

/-- The `for threshold, min_wetness in PLEASURE_WETNESS_RULES` loop with
its `break`: the FIRST rule (in ascending order) whose threshold the
final pleasure meets — later rules are never reached. -/
def firstSatisfiedRule : List (Int × String) → Int → Option String
  | [], _ => none
  | (t, w) :: rest, p => if p ≥ t then some w else firstSatisfiedRule rest p

def ORGASM_KEYWORDS : List String := ["高潮", "余韵", "颤抖", "痉挛"]

/-- 规则1 (escalation): if the first satisfied threshold rule demands a
higher minimum wetness than the effective value, force it up. -/
def rule_a_updates (updates : JMap) (c : CharacterStatus) : JMap :=
  match firstSatisfiedRule PLEASURE_WETNESS_RULES (finalPleasureOf updates c) with
  | some min_wetness =>
    if effectiveWetnessIdx updates c < wetnessLevelIdx min_wetness
    then mapSet updates "vaginal_wetness" (.jstr min_wetness)
    else updates
  | none => updates

/-- The `wetness_adjusted` flag set by 规则1. -/
def rule_a_adjusted (updates : JMap) (c : CharacterStatus) : Bool :=
  match firstSatisfiedRule PLEASURE_WETNESS_RULES (finalPleasureOf updates c) with
  | some min_wetness => decide (effectiveWetnessIdx updates c < wetnessLevelIdx min_wetness)
  | none => false

/-- 规则1.5 (de-escalation): skipped when 规则1 fired; otherwise on a
`< -10` delta landing below 30 with wetness index ≥ 2, step the wetness
down one level (`max(0, idx-1)` is the truncated Nat subtraction). -/
def rule_b_updates (updates : JMap) (c : CharacterStatus) : JMap :=
  if rule_a_adjusted updates c = false ∧ pleasureDeltaOf updates < -10 ∧
      effectiveWetnessIdx updates c > 0 ∧ finalPleasureOf updates c < 30 ∧
      effectiveWetnessIdx updates c ≥ 2
  then mapSet (rule_a_updates updates c) "vaginal_wetness"
    (.jstr (WETNESS_LEVELS.getD (effectiveWetnessIdx updates c - 1) "正常"))
  else rule_a_updates updates c

def ensure_status_consistency (updates : JMap) (c : CharacterStatus) (scene_type : String) : JMap :=
  let final_pleasure := finalPleasureOf updates c
  let updates2 := rule_b_updates updates c
  -- 规则2：高快感值时自动更新生理状态
  let updated_physio :=
    match mapGet updates "physiological_state" with
    | some (.jstr s) => s
    | some _ => ""
    | none => ""
  let current_physio := c.physiological_state
  let is_orgasm_state :=
    ORGASM_KEYWORDS.any (fun kw => strContains updated_physio kw || strContains current_physio kw)
  if (mapGet updates "physiological_state").isNone ∧ scene_type ≠ SCENE_TYPE_REST ∧ ¬is_orgasm_state then
    if final_pleasure ≥ 80 then mapSet updates2 "physiological_state" (.jstr "呼吸急促，身体剧烈颤抖")
    else if final_pleasure ≥ 60 then mapSet updates2 "physiological_state" (.jstr "呼吸急促，身体微微发热")
    else if final_pleasure ≥ 40 then mapSet updates2 "physiological_state" (.jstr "呼吸略微急促")
    else updates2
  else updates2

-- ==================== Decision Normalizer ====================
-- normalize_planner_decision / _clean_dict_key_spaces (src/core/utils.py,
-- 139-209) and the defaulting tail of SceneGenerator.plan_state_changes
-- (src/core/scene_generator.py, 57-70).

/-- `re.sub(r"\s+", "", str(key))`: drop every whitespace character. -/
def cleanKey (s : String) : String :=
  String.mk (s.data.filter (fun c => !(isPyWs c)))

def BOOL_FIELDS : List String := ["地点变化", "着装变化", "建议配图"]

def TRUE_TOKENS : List String := ["true", "1", "yes", "是"]

/-- `v.strip() if isinstance(v, str) else v`, applied elementwise. -/
def stripStr : JVal → JVal
  | .jstr s => .jstr (pyStrip s)
  | v => v

def stripStrList (l : List JVal) : List JVal := l.map stripStr

mutual
/-- Value handling of `_clean_dict_key_spaces`: strings are stripped,
dicts recurse, lists strip their string elements, others pass through. -/
def cleanDictVal : JVal → JVal
  | .jstr s => .jstr (pyStrip s)
  | .jdict d => .jdict (cleanDictGo d [])
  | .jlist l => .jlist (stripStrList l)
  | v => v
/-- `_clean_dict_key_spaces` body: rebuild the dict in order with cleaned
keys (later duplicates overwrite, keeping the first position). -/
def cleanDictGo : List (String × JVal) → JMap → JMap
  | [], acc => acc
  | (k, v) :: rest, acc => cleanDictGo rest (mapSet acc (cleanKey k) (cleanDictVal v))
end

/-- Top-level value handling of `normalize_planner_decision`: boolean
fields coerce string values via the truthy-token set, other strings are
stripped, dicts/lists are cleaned recursively. -/
def cleanValue (cleanK : String) (v : JVal) : JVal :=
  match v with
  | .jstr s =>
    if BOOL_FIELDS.contains cleanK
    then .jbool (TRUE_TOKENS.contains (pyStrip (pyLower s)))
    else .jstr (pyStrip s)
  | .jdict d => .jdict (cleanDictGo d [])
  | .jlist l => .jlist (stripStrList l)
  | v => v

/-- The key-cleaning loop of `normalize_planner_decision`. -/
def clean_decision_keys (decision : JMap) : JMap :=
  List.foldl (fun acc kv => mapSet acc (cleanKey kv.1) (cleanValue (cleanKey kv.1) kv.2))
    [] decision

/-- Alias handling: `角色状态` or `状态更新` canonicalize to `角色状态更新`
when the canonical key is absent. -/
def apply_updates_alias (m : JMap) : JMap :=
  if (mapGet m "角色状态更新").isSome then m
  else
    match mapGet m "角色状态" with
    | some v => mapSet m "角色状态更新" v
    | none =>
      match mapGet m "状态更新" with
      | some v => mapSet m "角色状态更新" v
      | none => m

/-- 确保角色状态更新字段仍然是字典: a non-dict (or missing) value is
replaced by the empty dict. -/
def ensure_updates_dict (m : JMap) : JMap :=
  match mapGet m "角色状态更新" with
  | some (.jdict d) => mapSet m "角色状态更新" (.jdict d)
  | _ => mapSet m "角色状态更新" (.jdict [])

def normalize_planner_decision (decision : JMap) : JMap :=
  ensure_updates_dict (apply_updates_alias (clean_decision_keys decision))

/-- Python falsiness (`if not value`). -/
def pyFalsy : JVal → Bool
  | .jstr s => s = ""
  | .jnum n => n = 0
  | .jbool b => !b
  | .jnull => true
  | .jlist l => l.isEmpty
  | .jdict d => d.isEmpty

def isHan (c : Char) : Bool := 0x4e00 ≤ c.toNat && c.toNat ≤ 0x9fff

/-- First non-whitespace character, if any (regex lookahead). -/
def nextNonWs : List Char → Option Char
  | [] => none
  | c :: rest => if isPyWs c then nextNonWs rest else some c

/-- `re.sub(r"(?<=[一-鿿])\s+(?=[一-鿿])", "", text)`:
a whitespace character is removed exactly when the nearest non-whitespace
characters on both sides are Han ideographs. -/
def hanGapGo (prev : Option Char) : List Char → List Char
  | [] => []
  | c :: rest =>
    if isPyWs c then
      let flanked :=
        (match prev with | some p => isHan p | none => false) &&
        (match nextNonWs rest with | some n2 => isHan n2 | none => false)
      if flanked then hanGapGo prev rest else c :: hanGapGo prev rest
    else c :: hanGapGo (some c) rest

/-- `re.sub(r"\s+", " ", text)`: collapse whitespace runs to one space. -/
def collapseWs : List Char → List Char
  | [] => []
  | [c] => if isPyWs c then [' '] else [c]
  | c1 :: c2 :: rest =>
    if isPyWs c1 && isPyWs c2 then collapseWs (c2 :: rest)
    else (if isPyWs c1 then ' ' else c1) :: collapseWs (c2 :: rest)

/-- `SceneGenerator._normalize_scene_field`: drop full-width spaces,
remove spaces between Han characters, collapse the rest. -/
def normalize_scene_field (v : JVal) : String :=
  if pyFalsy v then ""
  else
    let text := pyStrip (String.mk ((pyStr v).data.map
      (fun c => if c = Char.ofNat 0x3000 then ' ' else c)))
    if text = "" then ""
    else pyStrip (String.mk (collapseWs (hanGapGo none text.data)))

/-- `dict.setdefault(k, v)`. -/
def setdefault (m : JMap) (k : String) (v : JVal) : JMap :=
  if (mapGet m k).isSome then m else mapSet m k v

/-- The normalization pipeline of `plan_state_changes`, applied to a
successfully parsed planner response: normalize, default the canonical
fields, and clean the short location/clothing fields. -/
def plan_normalize (decision : JMap) : JMap :=
  let d := normalize_planner_decision decision
  let d := setdefault d "地点变化" (.jbool false)
  let d := setdefault d "新地点" (.jstr "")
  let d := setdefault d "着装变化" (.jbool false)
  let d := setdefault d "新着装" (.jstr "")
  let d := setdefault d "角色状态更新" (.jdict [])
  let d := mapSet d "新地点" (.jstr (normalize_scene_field ((mapGet d "新地点").getD (.jstr ""))))
  mapSet d "新着装" (.jstr (normalize_scene_field ((mapGet d "新着装").getD (.jstr ""))))

-- ==================== concrete test fixtures ====================

/-- A status with every numeric field inside its documented domain. -/
def statusInDomain : CharacterStatus :=
  { pleasure_value := 5, pleasure_threshold := 100, corruption_level := 10,
    semen_volume := 100, anal_development := 10, vaginal_capacity := 100,
    vaginal_wetness := "正常", vaginal_state := "放松",
    pregnancy_status := "未受孕", physiological_state := "" }

/-- The climax-scenario status of the spec: pleasure 95, threshold 100. -/
def statusNearClimax : CharacterStatus :=
  { pleasure_value := 95, pleasure_threshold := 100, corruption_level := 0,
    semen_volume := 0, anal_development := 0, vaginal_capacity := 100,
    vaginal_wetness := "正常", vaginal_state := "放松",
    pregnancy_status := "未受孕", physiological_state := "" }

/-- Status with pleasure 30 (the rest-decay scenario). -/
def statusPleasure30 : CharacterStatus :=
  { pleasure_value := 30, pleasure_threshold := 100, corruption_level := 0,
    semen_volume := 0, anal_development := 0, vaginal_capacity := 100,
    vaginal_wetness := "正常", vaginal_state := "放松",
    pregnancy_status := "未受孕", physiological_state := "" }

/-- A fresh status: pleasure 0, wetness 正常. -/
def statusFresh : CharacterStatus :=
  { pleasure_value := 0, pleasure_threshold := 100, corruption_level := 0,
    semen_volume := 0, anal_development := 0, vaginal_capacity := 100,
    vaginal_wetness := "正常", vaginal_state := "放松",
    pregnancy_status := "未受孕", physiological_state := "" }

/-- Status at wetness 淫湿 (index 3) and pleasure 40, for Rule B. -/
def statusWet : CharacterStatus :=
  { pleasure_value := 40, pleasure_threshold := 100, corruption_level := 0,
    semen_volume := 0, anal_development := 0, vaginal_capacity := 100,
    vaginal_wetness := "淫湿", vaginal_state := "放松",
    pregnancy_status := "未受孕", physiological_state := "" }

def updatesMinus50 : JMap := [("pleasure_value", .jnum (-50))]

def updatesPlus10 : JMap := [("pleasure_value", .jnum 10)]

def updatesPlus10Physio : JMap :=
  [("pleasure_value", .jnum 10), ("physiological_state", .jstr "轻轻喘息")]

def updatesPlus55 : JMap := [("pleasure_value", .jnum 55)]

def updatesMinus20 : JMap := [("pleasure_value", .jnum (-20))]

def updatesUnknown : JMap := [("totally_unknown_field", .jnum 999)]

def decisionUnknown : JMap := [("角色状态更新", .jdict updatesUnknown)]

def updatesAllNumeric : JMap :=
  [("pleasure_value", .jnum 40), ("corruption_level", .jnum 15),
   ("semen_volume", .jnum 120), ("anal_development", .jnum 15),
   ("vaginal_capacity", .jnum 30)]

def rawPlannerWhitespace : JMap := [("地 点 变 化", .jstr "true")]

-- ===========================================================================
-- ==================== theorems =============================================
-- ===========================================================================

theorem mapGet_mapSet_self (m : JMap) (k : String) (v : JVal) :
    mapGet (mapSet m k v) k = some v := by
  induction m with
  | nil => simp [mapSet, mapGet]
  | cons kv rest ih =>
    by_cases h : kv.1 = k
    · simp [mapSet, mapGet, h]
    · simp [mapSet, mapGet, h, ih]

theorem mapGet_mapSet_ne (m : JMap) (k k2 : String) (v : JVal) (h : k2 ≠ k) :
    mapGet (mapSet m k v) k2 = mapGet m k2 := by
  induction m with
  | nil => simp [mapSet, mapGet, Ne.symm h]
  | cons kv rest ih =>
    by_cases hk : kv.1 = k
    · subst hk
      simp [mapSet, mapGet, Ne.symm h]
    · by_cases hk2 : kv.1 = k2
      · simp [mapSet, mapGet, hk, hk2, h]
      · simp [mapSet, mapGet, hk, hk2, ih]

theorem mapGet_eq_none_of_keys_ne (m : JMap) (k : String)
    (h : ∀ kv ∈ m, kv.1 ≠ k) : mapGet m k = none := by
  induction m with
  | nil => rfl
  | cons kv rest ih =>
    have h1 : kv.1 ≠ k := h kv (by simp)
    simp only [mapGet, h1, if_false]
    exact ih (fun kv2 hm => h kv2 (by simp [hm]))

@[simp] theorem mapGet_nil (k : String) : mapGet [] k = none := rfl

@[simp] theorem orDefault_zero (v : Int) : orDefault v 0 = v := by
  unfold orDefault; split <;> omega

theorem orDefault_of_ne_zero (v d : Int) (h : v ≠ 0) : orDefault v d = v := by
  simp [orDefault, h]

theorem fdiv_four_lt (t : Int) (ht : 1 ≤ t) : Int.fdiv t 4 < t := by
  have h1 := Int.fdiv_add_fmod t 4
  have h2 : 0 ≤ t.fmod 4 := Int.fmod_nonneg (by omega) (by omega)
  omega

-- ---------- frame and lookup lemmas for the validator ----------

theorem setIfSome_get_ne (field k : String) (g : JVal → Option JVal) (u v : JMap)
    (h : k ≠ field) : mapGet (setIfSome field g u v) k = mapGet v k := by
  unfold setIfSome
  cases mapGet u field with
  | none => rfl
  | some raw =>
    dsimp only
    cases g raw with
    | none => rfl
    | some val => exact mapGet_mapSet_ne v field k val h

theorem setIfSome_get_self (field : String) (g : JVal → Option JVal) (u v : JMap) :
    mapGet (setIfSome field g u v) field =
      match mapGet u field with
      | some raw =>
        match g raw with
        | some val => some val
        | none => mapGet v field
      | none => mapGet v field := by
  unfold setIfSome
  cases mapGet u field with
  | none => rfl
  | some raw =>
    dsimp only
    cases g raw with
    | none => rfl
    | some val => exact mapGet_mapSet_self v field val

theorem setIfSome_skip (field : String) (g : JVal → Option JVal) (u v : JMap)
    (h : mapGet u field = none) : setIfSome field g u v = v := by
  simp [setIfSome, h]

theorem step_pleasure_get_ne (u : JMap) (c : CharacterStatus) (v : JMap) (k : String)
    (h1 : k ≠ "pleasure_value") (h2 : k ≠ "physiological_state") :
    mapGet (step_pleasure u c v) k = mapGet v k := by
  unfold step_pleasure
  cases mapGet u "pleasure_value" with
  | none => rfl
  | some raw =>
    dsimp only
    cases jnumVal? raw with
    | none => rfl
    | some n =>
      dsimp only
      split
      · rw [mapGet_mapSet_ne _ _ _ _ h1, mapGet_mapSet_ne _ _ _ _ h2]
      · rw [mapGet_mapSet_ne _ _ _ _ h1]

theorem step_pleasure_get_pv (u : JMap) (c : CharacterStatus) (v : JMap) :
    mapGet (step_pleasure u c v) "pleasure_value" =
      match mapGet u "pleasure_value" with
      | some raw =>
        match jnumVal? raw with
        | some n => some (.jnum (pleasureDeltaValidated c n))
        | none => mapGet v "pleasure_value"
      | none => mapGet v "pleasure_value" := by
  unfold step_pleasure
  cases mapGet u "pleasure_value" with
  | none => rfl
  | some raw =>
    dsimp only
    cases jnumVal? raw with
    | none => rfl
    | some n =>
      dsimp only
      split
      · exact mapGet_mapSet_self _ _ _
      · exact mapGet_mapSet_self _ _ _

theorem step_pleasure_get_ps (u : JMap) (c : CharacterStatus) (v : JMap) :
    mapGet (step_pleasure u c v) "physiological_state" =
      match mapGet u "pleasure_value" with
      | some raw =>
        match jnumVal? raw with
        | some n =>
          if orDefault c.pleasure_value 0 + gPleasureClamp n ≥ orDefault c.pleasure_threshold 100
          then some (.jstr CLIMAX_TEXT)
          else mapGet v "physiological_state"
        | none => mapGet v "physiological_state"
      | none => mapGet v "physiological_state" := by
  unfold step_pleasure
  cases mapGet u "pleasure_value" with
  | none => rfl
  | some raw =>
    dsimp only
    cases jnumVal? raw with
    | none => rfl
    | some n =>
      dsimp only
      split
      · rw [mapGet_mapSet_ne _ _ _ _ (by decide), mapGet_mapSet_self]
      · rw [mapGet_mapSet_ne _ _ _ _ (by decide)]

theorem step_pleasure_skip (u : JMap) (c : CharacterStatus) (v : JMap)
    (h : mapGet u "pleasure_value" = none) : step_pleasure u c v = v := by
  simp [step_pleasure, h]

theorem validate_get_pleasure (u : JMap) (c : CharacterStatus) :
    mapGet (validate_updates u c) "pleasure_value" =
      match mapGet u "pleasure_value" with
      | some raw =>
        match jnumVal? raw with
        | some n => some (.jnum (pleasureDeltaValidated c n))
        | none => none
      | none => none := by
  unfold validate_updates
  simp only [setIfSome_get_ne, String.reduceEq, ne_eq, not_false_iff]
  rw [step_pleasure_get_pv]
  cases mapGet u "pleasure_value" with
  | none => rfl
  | some raw => cases jnumVal? raw <;> rfl

theorem validate_get_physio (u : JMap) (c : CharacterStatus) :
    mapGet (validate_updates u c) "physiological_state" =
      match mapGet u "physiological_state" with
      | some raw =>
        match gPhysio raw with
        | some val => some val
        | none => mapGet (step_pleasure u c []) "physiological_state"
      | none => mapGet (step_pleasure u c []) "physiological_state" := by
  unfold validate_updates
  simp only [setIfSome_get_ne, String.reduceEq, ne_eq, not_false_iff]
  rw [setIfSome_get_self]
  cases mapGet u "physiological_state" with
  | none => simp only [setIfSome_get_ne, String.reduceEq, ne_eq, not_false_iff]
  | some raw =>
    dsimp only
    cases gPhysio raw with
    | none => simp only [setIfSome_get_ne, String.reduceEq, ne_eq, not_false_iff]
    | some val => rfl

theorem validate_get_corruption (u : JMap) (c : CharacterStatus) :
    mapGet (validate_updates u c) "corruption_level" =
      match mapGet u "corruption_level" with
      | some raw =>
        match gCorruption c raw with
        | some val => some val
        | none => none
      | none => none := by
  unfold validate_updates
  simp only [setIfSome_get_ne, String.reduceEq, ne_eq, not_false_iff]
  rw [setIfSome_get_self]
  cases mapGet u "corruption_level" with
  | none =>
    rw [step_pleasure_get_ne _ _ _ _ (by decide) (by decide)]
    rfl
  | some raw =>
    dsimp only
    cases gCorruption c raw with
    | none =>
      rw [step_pleasure_get_ne _ _ _ _ (by decide) (by decide)]
      rfl
    | some val => rfl

theorem validate_get_semen (u : JMap) (c : CharacterStatus) :
    mapGet (validate_updates u c) "semen_volume" =
      match mapGet u "semen_volume" with
      | some raw =>
        match gSemen c raw with
        | some val => some val
        | none => none
      | none => none := by
  unfold validate_updates
  simp only [setIfSome_get_ne, String.reduceEq, ne_eq, not_false_iff]
  rw [setIfSome_get_self]
  cases mapGet u "semen_volume" with
  | none =>
    simp only [setIfSome_get_ne, String.reduceEq, ne_eq, not_false_iff]
    rw [step_pleasure_get_ne _ _ _ _ (by decide) (by decide)]
    rfl
  | some raw =>
    dsimp only
    cases gSemen c raw with
    | none =>
      simp only [setIfSome_get_ne, String.reduceEq, ne_eq, not_false_iff]
      rw [step_pleasure_get_ne _ _ _ _ (by decide) (by decide)]
      rfl
    | some val => rfl

theorem validate_get_anal (u : JMap) (c : CharacterStatus) :
    mapGet (validate_updates u c) "anal_development" =
      match mapGet u "anal_development" with
      | some raw =>
        match gAnal c raw with
        | some val => some val
        | none => none
      | none => none := by
  unfold validate_updates
  simp only [setIfSome_get_ne, String.reduceEq, ne_eq, not_false_iff]
  rw [setIfSome_get_self]
  cases mapGet u "anal_development" with
  | none =>
    simp only [setIfSome_get_ne, String.reduceEq, ne_eq, not_false_iff]
    rw [step_pleasure_get_ne _ _ _ _ (by decide) (by decide)]
    rfl
  | some raw =>
    dsimp only
    cases gAnal c raw with
    | none =>
      simp only [setIfSome_get_ne, String.reduceEq, ne_eq, not_false_iff]
      rw [step_pleasure_get_ne _ _ _ _ (by decide) (by decide)]
      rfl
    | some val => rfl

theorem validate_get_capacity (u : JMap) (c : CharacterStatus) :
    mapGet (validate_updates u c) "vaginal_capacity" =
      match mapGet u "vaginal_capacity" with
      | some raw =>
        match gCapacity c raw with
        | some val => some val
        | none => none
      | none => none := by
  unfold validate_updates
  rw [setIfSome_get_self]
  cases mapGet u "vaginal_capacity" with
  | none =>
    simp only [setIfSome_get_ne, String.reduceEq, ne_eq, not_false_iff]
    rw [step_pleasure_get_ne _ _ _ _ (by decide) (by decide)]
    rfl
  | some raw =>
    dsimp only
    cases gCapacity c raw with
    | none =>
      simp only [setIfSome_get_ne, String.reduceEq, ne_eq, not_false_iff]
      rw [step_pleasure_get_ne _ _ _ _ (by decide) (by decide)]
      rfl
    | some val => rfl

-- ---------- numeric bound lemmas for the per-field rules ----------

theorem pleasureDeltaValidated_lt (c : CharacterStatus) (n : Int)
    (ht : 1 ≤ c.pleasure_threshold) :
    c.pleasure_value + pleasureDeltaValidated c n < c.pleasure_threshold := by
  have hT : orDefault c.pleasure_threshold 100 = c.pleasure_threshold :=
    orDefault_of_ne_zero _ _ (by omega)
  have hdiv := fdiv_four_lt c.pleasure_threshold ht
  unfold pleasureDeltaValidated
  rw [hT]
  simp only [orDefault_zero]
  split
  · omega
  · omega

theorem pleasureDeltaValidated_of_trigger (c : CharacterStatus) (n : Int)
    (h : orDefault c.pleasure_value 0 + gPleasureClamp n ≥ orDefault c.pleasure_threshold 100) :
    pleasureDeltaValidated c n =
      -(orDefault c.pleasure_value 0) + Int.fdiv (orDefault c.pleasure_threshold 100) 4 := by
  unfold pleasureDeltaValidated
  simp only [orDefault_zero] at h ⊢
  rw [if_pos h]

theorem gCorruption_bound (c : CharacterStatus) (raw : JVal) (d : Int)
    (h : gCorruption c raw = some (.jnum d)) :
    0 < d ∧ d ≤ 20 ∧ c.corruption_level + d ≤ 100 := by
  unfold gCorruption at h
  cases hn : jnumVal? raw with
  | none => rw [hn] at h; exact absurd h (by simp)
  | some n =>
    rw [hn] at h
    simp only [orDefault_zero] at h
    split_ifs at h <;>
      simp only [Option.some.injEq, JVal.jnum.injEq] at h <;> omega

theorem gSemen_bound (c : CharacterStatus) (raw : JVal) (d : Int)
    (h : gSemen c raw = some (.jnum d))
    (hs0 : 0 ≤ c.semen_volume) (hs1 : c.semen_volume ≤ 500) :
    0 ≤ c.semen_volume + d ∧ c.semen_volume + d ≤ 500 := by
  unfold gSemen at h
  cases hn : jnumVal? raw with
  | none => rw [hn] at h; exact absurd h (by simp)
  | some n =>
    rw [hn] at h
    simp only [orDefault_zero] at h
    split_ifs at h <;>
      simp only [Option.some.injEq, JVal.jnum.injEq] at h <;> omega

theorem gAnal_bound (c : CharacterStatus) (raw : JVal) (d : Int)
    (h : gAnal c raw = some (.jnum d))
    (ha0 : 0 ≤ c.anal_development) (ha1 : c.anal_development ≤ 100) :
    0 ≤ c.anal_development + d ∧ c.anal_development + d ≤ 100 := by
  unfold gAnal at h
  cases hn : jnumVal? raw with
  | none => rw [hn] at h; exact absurd h (by simp)
  | some n =>
    rw [hn] at h
    simp only [orDefault_zero] at h
    split_ifs at h <;>
      simp only [Option.some.injEq, JVal.jnum.injEq] at h <;> omega

theorem gCapacity_bound (c : CharacterStatus) (raw : JVal) (d : Int)
    (h : gCapacity c raw = some (.jnum d))
    (hv0 : 50 ≤ c.vaginal_capacity) (hv1 : c.vaginal_capacity ≤ 300) :
    50 ≤ c.vaginal_capacity + d ∧ c.vaginal_capacity + d ≤ 300 := by
  have hV : orDefault c.vaginal_capacity 100 = c.vaginal_capacity :=
    orDefault_of_ne_zero _ _ (by omega)
  unfold gCapacity at h
  cases hn : jnumVal? raw with
  | none => rw [hn] at h; exact absurd h (by simp)
  | some n =>
    rw [hn, hV] at h
    dsimp only at h
    split_ifs at h <;>
      simp only [Option.some.injEq, JVal.jnum.injEq] at h <;> omega

theorem gCorruption_shape (c : CharacterStatus) (raw : JVal) (val : JVal)
    (h : gCorruption c raw = some val) : ∃ d, val = .jnum d := by
  unfold gCorruption at h
  cases hn : jnumVal? raw with
  | none => rw [hn] at h; exact absurd h (by simp)
  | some n =>
    rw [hn] at h
    dsimp only at h
    split_ifs at h <;>
      exact ⟨_, (Option.some.inj h).symm⟩

theorem gSemen_shape (c : CharacterStatus) (raw : JVal) (val : JVal)
    (h : gSemen c raw = some val) : ∃ d, val = .jnum d := by
  unfold gSemen at h
  cases hn : jnumVal? raw with
  | none => rw [hn] at h; exact absurd h (by simp)
  | some n =>
    rw [hn] at h
    dsimp only at h
    exact ⟨_, (Option.some.inj h).symm⟩

theorem gAnal_shape (c : CharacterStatus) (raw : JVal) (val : JVal)
    (h : gAnal c raw = some val) : ∃ d, val = .jnum d := by
  unfold gAnal at h
  cases hn : jnumVal? raw with
  | none => rw [hn] at h; exact absurd h (by simp)
  | some n =>
    rw [hn] at h
    dsimp only at h
    exact ⟨_, (Option.some.inj h).symm⟩

theorem gCapacity_shape (c : CharacterStatus) (raw : JVal) (val : JVal)
    (h : gCapacity c raw = some val) : ∃ d, val = .jnum d := by
  unfold gCapacity at h
  cases hn : jnumVal? raw with
  | none => rw [hn] at h; exact absurd h (by simp)
  | some n =>
    rw [hn] at h
    dsimp only at h
    exact ⟨_, (Option.some.inj h).symm⟩

-- ==================== claim theorems ====================

/-- C1 counterexample: with every numeric field of the current status in
its documented domain (pleasure 5 ∈ [0, 100]), the incoming delta −50 is
inside the validator's clamp window, survives validation unchanged, and
the merged pleasure 5 + (−50) = −45 falls below the documented lower
bound 0 — so the claim "validate never returns an update that would push
v+d outside the field's documented bound" is false for `pleasure_value`. -/
theorem C1_counterexample :
    (0 ≤ statusInDomain.pleasure_value ∧
      statusInDomain.pleasure_value ≤ statusInDomain.pleasure_threshold ∧
      1 ≤ statusInDomain.pleasure_threshold) ∧
    mapGet (validate_updates updatesMinus50 statusInDomain) "pleasure_value" =
      some (.jnum (-50)) ∧
    statusInDomain.pleasure_value + (-50) < 0 := by
  refine ⟨by decide, rfl, by decide⟩

/-- C1 (amended): for every incoming decision and every current status
within the documented domains, the validated update map never pushes
`corruption_level`, `semen_volume`, `anal_development` or
`vaginal_capacity` outside their documented bounds, and never pushes
`pleasure_value` above its threshold (it stays strictly below); the
documented LOWER bound of `pleasure_value` is not enforced by the
validator (see the counterexample). -/
theorem C1_amended_bounds (u : JMap) (c : CharacterStatus)
    (ht : 1 ≤ c.pleasure_threshold)
    (hc0 : 0 ≤ c.corruption_level) (hc1 : c.corruption_level ≤ 100)
    (hs0 : 0 ≤ c.semen_volume) (hs1 : c.semen_volume ≤ 500)
    (ha0 : 0 ≤ c.anal_development) (ha1 : c.anal_development ≤ 100)
    (hv0 : 50 ≤ c.vaginal_capacity) (hv1 : c.vaginal_capacity ≤ 300) :
    (∀ d, mapGet (validate_updates u c) "pleasure_value" = some (.jnum d) →
      c.pleasure_value + d < c.pleasure_threshold) ∧
    (∀ d, mapGet (validate_updates u c) "corruption_level" = some (.jnum d) →
      0 ≤ c.corruption_level + d ∧ c.corruption_level + d ≤ 100) ∧
    (∀ d, mapGet (validate_updates u c) "semen_volume" = some (.jnum d) →
      0 ≤ c.semen_volume + d ∧ c.semen_volume + d ≤ 500) ∧
    (∀ d, mapGet (validate_updates u c) "anal_development" = some (.jnum d) →
      0 ≤ c.anal_development + d ∧ c.anal_development + d ≤ 100) ∧
    (∀ d, mapGet (validate_updates u c) "vaginal_capacity" = some (.jnum d) →
      50 ≤ c.vaginal_capacity + d ∧ c.vaginal_capacity + d ≤ 300) := by
  refine ⟨?_, ?_, ?_, ?_, ?_⟩
  · intro d hd
    rw [validate_get_pleasure] at hd
    cases hg : mapGet u "pleasure_value" with
    | none => rw [hg] at hd; exact absurd hd (by simp)
    | some raw =>
      rw [hg] at hd
      dsimp only at hd
      cases hn : jnumVal? raw with
      | none => rw [hn] at hd; exact absurd hd (by simp)
      | some n =>
        rw [hn] at hd
        dsimp only at hd
        have hdn : pleasureDeltaValidated c n = d := by
          have := Option.some.inj hd
          exact JVal.jnum.inj this
        rw [← hdn]
        exact pleasureDeltaValidated_lt c n ht
  · intro d hd
    rw [validate_get_corruption] at hd
    cases hg : mapGet u "corruption_level" with
    | none => rw [hg] at hd; exact absurd hd (by simp)
    | some raw =>
      rw [hg] at hd
      dsimp only at hd
      cases hG : gCorruption c raw with
      | none => rw [hG] at hd; exact absurd hd (by simp)
      | some val =>
        rw [hG] at hd
        dsimp only at hd
        rw [Option.some.inj hd] at hG
        have := gCorruption_bound c raw d hG
        omega
  · intro d hd
    rw [validate_get_semen] at hd
    cases hg : mapGet u "semen_volume" with
    | none => rw [hg] at hd; exact absurd hd (by simp)
    | some raw =>
      rw [hg] at hd
      dsimp only at hd
      cases hG : gSemen c raw with
      | none => rw [hG] at hd; exact absurd hd (by simp)
      | some val =>
        rw [hG] at hd
        dsimp only at hd
        rw [Option.some.inj hd] at hG
        exact gSemen_bound c raw d hG hs0 hs1
  · intro d hd
    rw [validate_get_anal] at hd
    cases hg : mapGet u "anal_development" with
    | none => rw [hg] at hd; exact absurd hd (by simp)
    | some raw =>
      rw [hg] at hd
      dsimp only at hd
      cases hG : gAnal c raw with
      | none => rw [hG] at hd; exact absurd hd (by simp)
      | some val =>
        rw [hG] at hd
        dsimp only at hd
        rw [Option.some.inj hd] at hG
        exact gAnal_bound c raw d hG ha0 ha1
  · intro d hd
    rw [validate_get_capacity] at hd
    cases hg : mapGet u "vaginal_capacity" with
    | none => rw [hg] at hd; exact absurd hd (by simp)
    | some raw =>
      rw [hg] at hd
      dsimp only at hd
      cases hG : gCapacity c raw with
      | none => rw [hG] at hd; exact absurd hd (by simp)
      | some val =>
        rw [hG] at hd
        dsimp only at hd
        rw [Option.some.inj hd] at hG
        exact gCapacity_bound c raw d hG hv0 hv1

/-- Witness for the amended C1 bounds at a concrete in-domain status and
an all-numeric update: the emitted corruption delta 15 and capacity
delta 30 satisfy the proved bounds. -/
theorem C1_amended_bounds_witness :
    mapGet (validate_updates updatesAllNumeric statusInDomain) "corruption_level" =
      some (.jnum 15) ∧
    (0 ≤ statusInDomain.corruption_level + 15 ∧
      statusInDomain.corruption_level + 15 ≤ 100) ∧
    mapGet (validate_updates updatesAllNumeric statusInDomain) "vaginal_capacity" =
      some (.jnum 30) ∧
    (50 ≤ statusInDomain.vaginal_capacity + 30 ∧
      statusInDomain.vaginal_capacity + 30 ≤ 300) :=
  ⟨rfl,
   (C1_amended_bounds updatesAllNumeric statusInDomain (by decide) (by decide)
     (by decide) (by decide) (by decide) (by decide) (by decide) (by decide)
     (by decide)).2.1 15 rfl,
   rfl,
   (C1_amended_bounds updatesAllNumeric statusInDomain (by decide) (by decide)
     (by decide) (by decide) (by decide) (by decide) (by decide) (by decide)
     (by decide)).2.2.2.2 30 rfl⟩

/-- C2: with pleasure 95 and threshold 100, an incoming +10 delta (and no
physiological_state entry) is rewritten to −70, so the additively merged
pleasure is exactly 100 // 4 = 25, and the validated map carries the
forced climax-aftermath text 高潮后的余韵中颤抖. -/
theorem C2_climax_reset :
    mapGet (validate_updates updatesPlus10 statusNearClimax) "pleasure_value" =
      some (.jnum (-70)) ∧
    mapGet (validate_updates updatesPlus10 statusNearClimax) "physiological_state" =
      some (.jstr "高潮后的余韵中颤抖") ∧
    mapGet (process_updates statusNearClimax (validate_updates updatesPlus10 statusNearClimax))
      "pleasure_value" = some (.jnum 25) ∧
    (25 : Int) = Int.fdiv 100 4 := by
  refine ⟨rfl, rfl, rfl, by decide⟩

/-- C5 counterexample: when the climax condition holds (95 + 10 ≥ 100)
but the incoming decision ALSO carries a `physiological_state` value,
section 4 of the validator overwrites the forced climax text with the
incoming value, so the claim's "including when the incoming decision
itself also carries a physiological_state value" is false. -/
theorem C5_counterexample :
    statusNearClimax.pleasure_value + gPleasureClamp 10 ≥ statusNearClimax.pleasure_threshold ∧
    mapGet (validate_updates updatesPlus10Physio statusNearClimax) "pleasure_value" =
      some (.jnum (-70)) ∧
    mapGet (validate_updates updatesPlus10Physio statusNearClimax) "physiological_state" =
      some (.jstr "轻轻喘息") ∧
    "轻轻喘息" ≠ CLIMAX_TEXT := by
  refine ⟨by decide, rfl, rfl, by decide⟩

/-- C5 (amended): whenever the clamped pleasure delta reaches the
threshold, the validator rewrites the delta to `-current + threshold//4`;
the climax-aftermath text is forced into the update map whenever the
incoming decision carries no `physiological_state` of its own (an
incoming value overwrites the forced text — see the counterexample). -/
theorem C5_amended_climax (u : JMap) (c : CharacterStatus) (raw : JVal) (n : Int)
    (hraw : mapGet u "pleasure_value" = some raw) (hn : jnumVal? raw = some n)
    (htrig : orDefault c.pleasure_value 0 + gPleasureClamp n ≥ orDefault c.pleasure_threshold 100) :
    mapGet (validate_updates u c) "pleasure_value" =
      some (.jnum (-(orDefault c.pleasure_value 0) +
        Int.fdiv (orDefault c.pleasure_threshold 100) 4)) ∧
    (mapGet u "physiological_state" = none →
      mapGet (validate_updates u c) "physiological_state" = some (.jstr CLIMAX_TEXT)) := by
  constructor
  · rw [validate_get_pleasure, hraw]
    dsimp only
    rw [hn]
    dsimp only
    rw [pleasureDeltaValidated_of_trigger c n htrig]
  · intro hps
    rw [validate_get_physio, hps]
    dsimp only
    rw [step_pleasure_get_ps, hraw]
    dsimp only
    rw [hn]
    dsimp only
    rw [if_pos htrig]

/-- Witness for the amended C5 at the concrete climax scenario. -/
theorem C5_amended_climax_witness :
    mapGet (validate_updates updatesPlus10 statusNearClimax) "physiological_state" =
      some (.jstr CLIMAX_TEXT) :=
  (C5_amended_climax updatesPlus10 statusNearClimax (.jnum 10) 10 rfl rfl (by decide)).2 rfl

/-- C8: for any decision and any current corruption in [0,100], the
validated map either omits `corruption_level` or carries a strictly
positive delta bounded by 20 and by the remaining headroom `100 - current`
— corruption never decreases and the merged value never exceeds 100. -/
theorem C8_corruption_monotone (u : JMap) (c : CharacterStatus)
    (hc0 : 0 ≤ c.corruption_level) (hc1 : c.corruption_level ≤ 100) :
    mapGet (validate_updates u c) "corruption_level" = none ∨
    ∃ d, mapGet (validate_updates u c) "corruption_level" = some (.jnum d) ∧
      0 < d ∧ d ≤ 20 ∧ d ≤ 100 - c.corruption_level := by
  rw [validate_get_corruption]
  cases hg : mapGet u "corruption_level" with
  | none => exact Or.inl rfl
  | some raw =>
    dsimp only
    cases hG : gCorruption c raw with
    | none => exact Or.inl rfl
    | some val =>
      obtain ⟨d, hd⟩ := gCorruption_shape c raw val hG
      subst hd
      have := gCorruption_bound c raw d hG
      exact Or.inr ⟨d, rfl, by omega⟩

/-- Witness for C8: the concrete +15 corruption delta at corruption 10. -/
theorem C8_corruption_monotone_witness :
    (mapGet (validate_updates updatesAllNumeric statusInDomain) "corruption_level" = none ∨
     ∃ d, mapGet (validate_updates updatesAllNumeric statusInDomain) "corruption_level" =
        some (.jnum d) ∧
       0 < d ∧ d ≤ 20 ∧ d ≤ 100 - statusInDomain.corruption_level) ∧
    mapGet (validate_updates updatesAllNumeric statusInDomain) "corruption_level" =
      some (.jnum 15) :=
  ⟨C8_corruption_monotone updatesAllNumeric statusInDomain (by decide) (by decide), rfl⟩

/-- C10: whenever the incoming decision carries a numeric pleasure delta
and the threshold is at least 1, the validated delta keeps the merged
pleasure strictly below the threshold; the climax branch fires already at
equality and resets the merged value to exactly threshold // 4. -/
theorem C10_pleasure_below_threshold (u : JMap) (c : CharacterStatus) (raw : JVal) (n : Int)
    (hraw : mapGet u "pleasure_value" = some raw) (hn : jnumVal? raw = some n)
    (ht : 1 ≤ c.pleasure_threshold) :
    ∃ d, mapGet (validate_updates u c) "pleasure_value" = some (.jnum d) ∧
      c.pleasure_value + d < c.pleasure_threshold ∧
      (c.pleasure_value + gPleasureClamp n ≥ c.pleasure_threshold →
        c.pleasure_value + d = Int.fdiv c.pleasure_threshold 4) := by
  have hT : orDefault c.pleasure_threshold 100 = c.pleasure_threshold :=
    orDefault_of_ne_zero _ _ (by omega)
  refine ⟨pleasureDeltaValidated c n, ?_, pleasureDeltaValidated_lt c n ht, ?_⟩
  · rw [validate_get_pleasure, hraw]
    dsimp only
    rw [hn]
  · intro htrig
    have heq := pleasureDeltaValidated_of_trigger c n
      (by rw [hT]; simpa using htrig)
    rw [heq, hT]
    simp only [orDefault_zero]
    ring

/-- Witness for C10 at the concrete climax scenario (95 + 10 ≥ 100,
merged value 25 = 100 // 4). -/
theorem C10_pleasure_below_threshold_witness :
    ∃ d, mapGet (validate_updates updatesPlus10 statusNearClimax) "pleasure_value" =
        some (.jnum d) ∧
      statusNearClimax.pleasure_value + d < statusNearClimax.pleasure_threshold ∧
      (statusNearClimax.pleasure_value + gPleasureClamp 10 ≥ statusNearClimax.pleasure_threshold →
        statusNearClimax.pleasure_value + d = Int.fdiv statusNearClimax.pleasure_threshold 4) :=
  C10_pleasure_below_threshold updatesPlus10 statusNearClimax (.jnum 10) 10 rfl rfl (by decide)

-- ---------- unknown-field rejection ----------

theorem keys_unknown_get_none (u : JMap) (f : String) (hf : f ∈ VALIDATED_FIELDS)
    (h : ∀ kv ∈ u, kv.1 ∉ VALIDATED_FIELDS) : mapGet u f = none :=
  mapGet_eq_none_of_keys_ne u f (fun kv hm he => h kv hm (he ▸ hf))

/-- C4: a decision whose `角色状态更新` holds only keys outside the
documented field table validates to the EMPTY update map (no exception is
possible — the embedding is total), the decision comes back with
`角色状态更新 = {}`, and nothing survives the store whitelist, so no store
column is mutated; fields absent from the decision are never added. -/
theorem C4_unknown_fields_dropped (u : JMap) (c : CharacterStatus) (decision : JMap)
    (hu : ∀ kv ∈ u, kv.1 ∉ VALIDATED_FIELDS)
    (hne : u ≠ [])
    (hdec : mapGet decision "角色状态更新" = some (.jdict u)) :
    validate_updates u c = [] ∧
    validate_state_decision decision c = mapSet decision "角色状态更新" (.jdict []) ∧
    db_update_fields (validate_updates u c) = [] := by
  have hval : validate_updates u c = [] := by
    simp only [validate_updates, setIfSome, step_pleasure,
      keys_unknown_get_none u "pleasure_value" (by decide) hu,
      keys_unknown_get_none u "corruption_level" (by decide) hu,
      keys_unknown_get_none u "semen_volume" (by decide) hu,
      keys_unknown_get_none u "physiological_state" (by decide) hu,
      keys_unknown_get_none u "vaginal_state" (by decide) hu,
      keys_unknown_get_none u "vaginal_wetness" (by decide) hu,
      keys_unknown_get_none u "pregnancy_status" (by decide) hu,
      keys_unknown_get_none u "pregnancy_source" (by decide) hu,
      keys_unknown_get_none u "pregnancy_counter" (by decide) hu,
      keys_unknown_get_none u "semen_sources" (by decide) hu,
      keys_unknown_get_none u "vaginal_foreign" (by decide) hu,
      keys_unknown_get_none u "inventory" (by decide) hu,
      keys_unknown_get_none u "fetishes" (by decide) hu,
      keys_unknown_get_none u "permanent_mods" (by decide) hu,
      keys_unknown_get_none u "body_condition" (by decide) hu,
      keys_unknown_get_none u "anal_development" (by decide) hu,
      keys_unknown_get_none u "vaginal_capacity" (by decide) hu]
  have hempty : u.isEmpty = false := by
    cases u with
    | nil => exact absurd rfl hne
    | cons kv rest => rfl
  refine ⟨hval, ?_, by rw [hval]; rfl⟩
  simp only [validate_state_decision, hdec, hempty, Bool.false_eq_true, if_false, hval]

/-- Witness for C4 on the concrete `{"totally_unknown_field": 999}`. -/
theorem C4_unknown_fields_dropped_witness :
    validate_updates updatesUnknown statusInDomain = [] ∧
    validate_state_decision decisionUnknown statusInDomain =
      mapSet decisionUnknown "角色状态更新" (.jdict []) ∧
    db_update_fields (validate_updates updatesUnknown statusInDomain) = [] :=
  C4_unknown_fields_dropped updatesUnknown statusInDomain decisionUnknown
    (by decide) (by simp [updatesUnknown]) rfl

-- ---------- scene-type decay ----------

/-- C6: with scene type `rest`, pleasure 30 and no explicit delta, the
decay engine stages −15 and the merged pleasure is exactly 15; and in
general, whenever no explicit delta is present, any staged flat decay is
capped at the current pleasure, so the merged result is never negative. -/
theorem C6_scene_decay :
    (mapGet (apply_scene_decay [] SCENE_TYPE_REST statusPleasure30) "pleasure_value" =
       some (.jnum (-15)) ∧
     mapGet (process_updates statusPleasure30
        (apply_scene_decay [] SCENE_TYPE_REST statusPleasure30)) "pleasure_value" =
       some (.jnum 15)) ∧
    (∀ (st : String) (c : CharacterStatus) (u : JMap),
      mapGet u "pleasure_value" = none →
      ∀ d, mapGet (apply_scene_decay u st c) "pleasure_value" = some (.jnum d) →
        0 ≤ orDefault c.pleasure_value 0 + d) := by
  refine ⟨⟨rfl, rfl⟩, ?_⟩
  intro st c u hu d hd
  unfold apply_scene_decay at hd
  rw [hu] at hd
  dsimp only at hd
  split_ifs at hd <;>
    first
    | · rw [mapGet_mapSet_self] at hd
        simp only [Option.some.injEq, JVal.jnum.injEq] at hd
        omega
    | · rw [hu] at hd
        exact absurd hd (by simp)

/-- Witness for the general C6 cap at the concrete rest scenario. -/
theorem C6_scene_decay_witness :
    0 ≤ orDefault statusPleasure30.pleasure_value 0 + (-15) :=
  C6_scene_decay.2 SCENE_TYPE_REST statusPleasure30 [] rfl (-15) C6_scene_decay.1.1

-- ---------- consistency enforcer ----------

theorem wetnessLevelIdx_getD (i : Nat) (h : i < 5) :
    wetnessLevelIdx (WETNESS_LEVELS.getD i "正常") = i := by
  interval_cases i <;> decide

theorem wetnessLevelIdx_le_four (s : String) : wetnessLevelIdx s ≤ 4 := by
  unfold wetnessLevelIdx
  split
  · rename_i h
    have hm : s ∈ WETNESS_LEVELS := by
      simpa [List.contains_iff_exists_mem_beq, beq_iff_eq] using h
    have := List.indexOf_lt_length.mpr hm
    simpa [WETNESS_LEVELS] using Nat.lt_succ_iff.mp (by simpa [WETNESS_LEVELS] using this)
  · omega

theorem effectiveWetnessIdx_le_four (u : JMap) (c : CharacterStatus) :
    effectiveWetnessIdx u c ≤ 4 := by
  unfold effectiveWetnessIdx
  cases (mapGet u "vaginal_wetness").getD (.jstr c.vaginal_wetness) with
  | jstr s => exact wetnessLevelIdx_le_four s
  | jnum n => exact Nat.zero_le 4
  | jbool b => exact Nat.zero_le 4
  | jnull => exact Nat.zero_le 4
  | jlist l => exact Nat.zero_le 4
  | jdict d => exact Nat.zero_le 4

theorem effectiveWetnessIdx_mapSet_wet (m : JMap) (c : CharacterStatus) (s : String) :
    effectiveWetnessIdx (mapSet m "vaginal_wetness" (.jstr s)) c = wetnessLevelIdx s := by
  unfold effectiveWetnessIdx
  rw [mapGet_mapSet_self]
  rfl

theorem ensure_get_wetness (u : JMap) (c : CharacterStatus) (st : String) :
    mapGet (ensure_status_consistency u c st) "vaginal_wetness" =
      mapGet (rule_b_updates u c) "vaginal_wetness" := by
  simp only [ensure_status_consistency]
  split_ifs <;>
    first
    | rw [mapGet_mapSet_ne _ _ _ _ (by decide)]
    | rfl

/-- C3 (code divergence): a validated delta giving `final_pleasure = 55`
over current wetness 正常 makes the consistency pass set wetness to 微湿 —
the FIRST satisfied rule of the ascending table, reached with `break` —
not to 湿润 as the 50-threshold minimum (and the spec's testable
property) demand. -/
theorem C3_escalation_stops_at_first_rule :
    finalPleasureOf updatesPlus55 statusFresh = 55 ∧
    statusFresh.vaginal_wetness = "正常" ∧
    mapGet (ensure_status_consistency updatesPlus55 statusFresh SCENE_TYPE_NORMAL)
      "vaginal_wetness" = some (.jstr "微湿") ∧
    "微湿" ≠ "湿润" := by
  refine ⟨by decide, rfl, rfl, by decide⟩

/-- C9: (a) whenever the pleasure delta is below −10, the resulting
(0-floored) pleasure is below 30 and the effective wetness index is ≥ 2,
the consistency pass steps the wetness down by exactly one ordinal level;
(b) in every call the wetness is never lowered by more than one step
(in particular Rule B is skipped whenever Rule A fired, via the
`wetness_adjusted` flag — escalation and de-escalation are exclusive). -/
theorem C9_wetness_deescalation (u : JMap) (c : CharacterStatus) (st : String) :
    (pleasureDeltaOf u < -10 → finalPleasureOf u c < 30 → 2 ≤ effectiveWetnessIdx u c →
      mapGet (ensure_status_consistency u c st) "vaginal_wetness" =
        some (.jstr (WETNESS_LEVELS.getD (effectiveWetnessIdx u c - 1) "正常"))) ∧
    effectiveWetnessIdx u c ≤ effectiveWetnessIdx (ensure_status_consistency u c st) c + 1 := by
  have hout : effectiveWetnessIdx (ensure_status_consistency u c st) c =
      effectiveWetnessIdx (rule_b_updates u c) c := by
    unfold effectiveWetnessIdx
    rw [ensure_get_wetness]
  constructor
  · intro hd hf hw
    have hrule : firstSatisfiedRule PLEASURE_WETNESS_RULES (finalPleasureOf u c) = none := by
      have h1 : ¬(finalPleasureOf u c ≥ (30:Int)) := by omega
      have h2 : ¬(finalPleasureOf u c ≥ (50:Int)) := by omega
      have h3 : ¬(finalPleasureOf u c ≥ (70:Int)) := by omega
      have h4 : ¬(finalPleasureOf u c ≥ (90:Int)) := by omega
      simp [PLEASURE_WETNESS_RULES, firstSatisfiedRule, h1, h2, h3, h4]
    rw [ensure_get_wetness]
    unfold rule_b_updates rule_a_adjusted rule_a_updates
    rw [hrule]
    dsimp only
    rw [if_pos ⟨rfl, hd, by omega, hf, hw⟩]
    exact mapGet_mapSet_self _ _ _
  · rw [hout]
    unfold rule_b_updates
    split_ifs with hB
    · rw [effectiveWetnessIdx_mapSet_wet]
      have hle : effectiveWetnessIdx u c ≤ 4 := effectiveWetnessIdx_le_four u c
      have h2 : 2 ≤ effectiveWetnessIdx u c := hB.2.2.2.2
      rw [wetnessLevelIdx_getD _ (by omega)]
      omega
    · unfold rule_a_updates
      cases hrule : firstSatisfiedRule PLEASURE_WETNESS_RULES (finalPleasureOf u c) with
      | none => dsimp only; omega
      | some mw =>
        dsimp only
        split_ifs with hA
        · rw [effectiveWetnessIdx_mapSet_wet]
          omega
        · omega

/-- Witness for C9 at wetness 淫湿 (index 3), delta −20, final pleasure
20: the wetness steps down exactly one level (to index 2, 湿润). -/
theorem C9_wetness_deescalation_witness :
    mapGet (ensure_status_consistency updatesMinus20 statusWet SCENE_TYPE_NORMAL)
      "vaginal_wetness" =
      some (.jstr (WETNESS_LEVELS.getD (effectiveWetnessIdx updatesMinus20 statusWet - 1) "正常")) :=
  (C9_wetness_deescalation updatesMinus20 statusWet SCENE_TYPE_NORMAL).1
    (by decide) (by decide) (by decide)

-- ---------- decision normalizer ----------

theorem setdefault_get_ne (m : JMap) (k k2 : String) (v : JVal) (h : k2 ≠ k) :
    mapGet (setdefault m k v) k2 = mapGet m k2 := by
  unfold setdefault
  split
  · rfl
  · exact mapGet_mapSet_ne m k k2 v h

theorem setdefault_of_isSome (m : JMap) (k : String) (v : JVal)
    (h : (mapGet m k).isSome) : setdefault m k v = m := by
  unfold setdefault
  rw [if_pos h]

theorem ensure_updates_dict_get (m : JMap) :
    ∃ d, mapGet (ensure_updates_dict m) "角色状态更新" = some (.jdict d) := by
  unfold ensure_updates_dict
  cases hm : mapGet m "角色状态更新" with
  | none => exact ⟨[], mapGet_mapSet_self _ _ _⟩
  | some v =>
    cases v with
    | jdict d => exact ⟨d, mapGet_mapSet_self _ _ _⟩
    | jnum n => exact ⟨[], mapGet_mapSet_self _ _ _⟩
    | jstr s => exact ⟨[], mapGet_mapSet_self _ _ _⟩
    | jbool b => exact ⟨[], mapGet_mapSet_self _ _ _⟩
    | jnull => exact ⟨[], mapGet_mapSet_self _ _ _⟩
    | jlist l => exact ⟨[], mapGet_mapSet_self _ _ _⟩

theorem normalize_get_updates (raw : JMap) :
    ∃ d, mapGet (normalize_planner_decision raw) "角色状态更新" = some (.jdict d) := by
  unfold normalize_planner_decision
  exact ensure_updates_dict_get _

theorem plan_normalize_get_updates (raw : JMap) :
    ∃ d, mapGet (plan_normalize raw) "角色状态更新" = some (.jdict d) := by
  obtain ⟨d, hd⟩ := normalize_get_updates raw
  refine ⟨d, ?_⟩
  unfold plan_normalize
  simp only [mapGet_mapSet_ne, setdefault_get_ne, String.reduceEq, ne_eq, not_false_iff]
  rw [setdefault_of_isSome]
  · simp only [setdefault_get_ne, String.reduceEq, ne_eq, not_false_iff]
    exact hd
  · simp only [setdefault_get_ne, String.reduceEq, ne_eq, not_false_iff]
    rw [hd]
    rfl

/-- C7: the raw planner output `{"地 点 变 化": "true"}` (stray whitespace
in the key, string-typed boolean) normalizes to 地点变化 = true, with
角色状态更新 present as the empty map and the omitted canonical fields
defaulted (着装变化 = false, 新地点 = 新着装 = ""); moreover for EVERY raw
decision the normalized record carries 角色状态更新 as a map. -/
theorem C7_normalizer_roundtrip :
    mapGet (plan_normalize rawPlannerWhitespace) "地点变化" = some (.jbool true) ∧
    mapGet (plan_normalize rawPlannerWhitespace) "角色状态更新" = some (.jdict []) ∧
    mapGet (plan_normalize rawPlannerWhitespace) "着装变化" = some (.jbool false) ∧
    mapGet (plan_normalize rawPlannerWhitespace) "新地点" = some (.jstr "") ∧
    mapGet (plan_normalize rawPlannerWhitespace) "新着装" = some (.jstr "") ∧
    (∀ raw : JMap, ∃ d, mapGet (plan_normalize raw) "角色状态更新" = some (.jdict d)) :=
  ⟨rfl, rfl, rfl, rfl, rfl, plan_normalize_get_updates⟩

end Maimai
